import Mathlib

/-!
Shallow embedding of `src/import_enhance.py` (Open-Assistant importer enhancer).

Conventions of the embedding:
* UUIDs are modelled as `Nat`.
* The SQLAlchemy session (`db`) is modelled as an explicit `Store` value holding
  the list of `Message` rows and `MessageTreeState` rows added so far, in
  insertion order; `db.add` appends a row, `db.flush`/`db.refresh` are no-ops on
  this abstraction.  Reads (`db.query`) scan the same `Store`, so reads inside a
  run observe the run's own uncommitted writes, exactly as in one SQLAlchemy
  unit of work.
* Python exceptions are modelled as `Except` values: the body of the `try:`
  block of `handle_json_line` returns `Store × Except ImportErr Nat` (the store
  is returned even on error, because mutations made before a `raise` stay in
  the session), and `handle_json_line` itself pattern-matches the result,
  mirroring the `except` clauses that catch every exception.
* Python truthiness of optional values is modelled explicitly (`pyStrOr`,
  `pyNatOr`, `pyOptStrOr`, `maxReached`).
-/

/-- `State` enumeration from `oasst_backend.models.message_tree_state`
(external collaborator); only `backlog_ranking` and `ranking` are accepted by
the importer, the other constructors stand for the remaining states of the
enumeration that the importer must reject. -/
inductive TreeState where
  | initial_prompt_review
  | growing
  | backlog_ranking
  | ranking
  | ready_for_scoring
  | scoring_failed
  | halted_by_moderator
deriving DecidableEq, Repr

mutual
/-- `ExportMessageNode` from `oasst_data` (external input schema): a message
node with optional fields and a list of replies.  The reply list is encoded as
the isomorphic mutual inductive `ExportReplies` so that recursion over the tree
is structural. -/
inductive ExportMessageNode where
  | mk : (message_id : Nat) → (text : String) → (role : String) →
      (lang : Option String) → (synthetic : Option Bool) →
      (model_name : Option String) → (review_count : Option Nat) →
      (replies : ExportReplies) → ExportMessageNode
deriving Repr

inductive ExportReplies where
  | nil : ExportReplies
  | cons : ExportMessageNode → ExportReplies → ExportReplies
deriving Repr
end

def ExportMessageNode.message_id : ExportMessageNode → Nat
  | .mk i _ _ _ _ _ _ _ => i

def ExportMessageNode.text : ExportMessageNode → String
  | .mk _ t _ _ _ _ _ _ => t

def ExportMessageNode.role : ExportMessageNode → String
  | .mk _ _ r _ _ _ _ _ => r

def ExportMessageNode.lang : ExportMessageNode → Option String
  | .mk _ _ _ l _ _ _ _ => l

def ExportMessageNode.synthetic : ExportMessageNode → Option Bool
  | .mk _ _ _ _ s _ _ _ => s

def ExportMessageNode.model_name : ExportMessageNode → Option String
  | .mk _ _ _ _ _ m _ _ => m

def ExportMessageNode.review_count : ExportMessageNode → Option Nat
  | .mk _ _ _ _ _ _ rc _ => rc

def ExportMessageNode.replies : ExportMessageNode → ExportReplies
  | .mk _ _ _ _ _ _ _ rs => rs

/-- `ExportMessageTree` from `oasst_data`: a tree identifier and the root
("prompt") node.  The identifier is `Option Nat` so that the absent case
checked by `import_tree` (`if not tree.message_tree_id`) is representable. -/
structure ExportMessageTree where
  message_tree_id : Option Nat
  prompt : ExportMessageNode
deriving Repr

/-- A `Message` row as constructed by `Importer.import_message`
(src/import_enhance.py lines 53-68).  Fields whose value is a fixed external
object (`payload`, `payload_type`) or maintained by the external
`PromptRepository.update_children_counts` (`children_count`) are not modelled;
no claim refers to them. -/
structure Message where
  id : Nat
  message_tree_id : Nat
  frontend_message_id : Nat
  parent_id : Option Nat
  review_count : Nat
  lang : String
  review_result : Bool
  synthetic : Bool
  model_name : Option String
  role : String
  text : String
  api_client_id : Nat
  user_id : Nat
deriving DecidableEq, Repr

/-- A `MessageTreeState` row as constructed by `Importer.import_tree`
(src/import_enhance.py lines 88-97). -/
structure MessageTreeState where
  message_tree_id : Nat
  goal_tree_size : Nat
  max_depth : Nat
  max_children_count : Nat
  state : TreeState
  origin : String
  active : Bool
  lang : String
deriving DecidableEq, Repr

/-- The database session's visible content: rows added so far, in insertion
order.  Uniqueness of primary keys is a property of the external database
schema, not enforced by the script, so rows form a list (a second insert of
the same id is a second row issued to the unit of work). -/
structure Store where
  messages : List Message
  treeStates : List MessageTreeState
deriving DecidableEq, Repr

/-- Run-wide fixed data of an `Importer` instance: the constructor arguments
`origin` and `model_name`, plus the api client and system user resolved by
`Importer.__init__` via external collaborators (`create_api_client`,
`UserRepository.lookup_system_user`). -/
structure ImporterConfig where
  origin : String
  model_name : Option String
  api_client_id : Nat
  import_user_id : Nat
deriving Repr

/-- `Importer.fetch_message`: `db.query(Message).filter(Message.id == message_id).one_or_none()`.
Modelled as the first matching row (our runs issue the query only in states
where at most one row matches). -/
def fetch_message (st : Store) (message_id : Nat) : Option Message :=
  st.messages.find? (fun m => m.id == message_id)

/-- `Importer.fetch_message_tree_state`: query by `message_tree_id`.  The
caller passes `tree.message_tree_id : Option Nat`; a `none` (absent id)
matches no row, like a SQL comparison with NULL. -/
def fetch_message_tree_state (st : Store) (message_tree_id : Option Nat) : Option MessageTreeState :=
  st.treeStates.find? (fun mts => some mts.message_tree_id == message_tree_id)

/-- Python `x or default` for an optional string (falsy: `None` and `""`). -/
def pyStrOr (x : Option String) (default : String) : String :=
  match x with
  | none => default
  | some s => if s = "" then default else s

/-- Python `x or default` where both sides are optional strings
(`message.model_name or self.model_name`). -/
def pyOptStrOr (x : Option String) (default : Option String) : Option String :=
  match x with
  | none => default
  | some s => if s = "" then default else some s

/-- Python `x or default` for an optional integer (falsy: `None` and `0`). -/
def pyNatOr (x : Option Nat) (default : Nat) : Nat :=
  match x with
  | none => default
  | some n => if n = 0 then default else n

mutual
/-- `Importer.import_message` (src/import_enhance.py lines 51-77): build the
`Message` row with default substitution, add it to the session, recount
children via the external `PromptRepository` when the node is a root (no
modelled effect), then recursively insert every reply with this node as
parent.  Returns the mutated store and the constructed root row. -/
def import_message (cfg : ImporterConfig) (message : ExportMessageNode)
    (message_tree_id : Nat) (parent_id : Option Nat) (st : Store) :
    Store × Message :=
  match message with
  | .mk mid mtext mrole mlang msynth mmodel mrc mreplies =>
    let msg : Message :=
      { id := mid
        message_tree_id := message_tree_id
        frontend_message_id := mid
        parent_id := parent_id
        review_count := pyNatOr mrc 0
        lang := pyStrOr mlang "en"
        review_result := true
        synthetic := (match msynth with | some b => b | none => true)
        model_name := pyOptStrOr mmodel cfg.model_name
        role := mrole
        text := mtext
        api_client_id := cfg.api_client_id
        user_id := cfg.import_user_id }
    let st1 : Store := { st with messages := st.messages ++ [msg] }
    (insert_replies cfg mreplies message_tree_id mid st1, msg)

/-- The `for r in message.replies:` loop of `import_message` (lines 74-76):
insert each reply in order, passing the just-created node's id as parent. -/
def insert_replies (cfg : ImporterConfig) (rs : ExportReplies)
    (message_tree_id : Nat) (parent_id : Nat) (st : Store) : Store :=
  match rs with
  | .nil => st
  | .cons r rest =>
      let st1 := (import_message cfg r message_tree_id (some parent_id) st).1
      insert_replies cfg rest message_tree_id parent_id st1
end

/-- Errors raised (as Python exceptions) while processing one line. -/
inductive ImportErr where
  | decodeError
  | validationError
  | structuralValidation
  | unsupportedState
deriving DecidableEq, Repr

/-- The two `ValueError`s of `import_tree` are the structural validation
errors of the spec's taxonomy. -/
def ImportErr.isStructural : ImportErr → Bool
  | .structuralValidation => true
  | .unsupportedState => true
  | _ => false

/-- `Importer.import_tree` (src/import_enhance.py lines 79-100).  Checks the
tree id, inserts the root subtree, then checks the target state, derives
`active`, and adds the `MessageTreeState` row.  An exception is modelled as an
`Except.error` paired with the store as mutated up to the raise point. -/
def import_tree (cfg : ImporterConfig) (tree : ExportMessageTree)
    (state : TreeState) (st : Store) :
    Store × Except ImportErr (MessageTreeState × Message) :=
  if tree.message_tree_id.isNone ∨ tree.message_tree_id ≠ some tree.prompt.message_id then
    (st, .error .structuralValidation)
  else
    let res := import_message cfg tree.prompt tree.prompt.message_id none st
    let st1 := res.1
    let root_msg := res.2
    if ¬ (state = .backlog_ranking ∨ state = .ranking) then
      (st1, .error .unsupportedState)
    else
      let active := state == TreeState.ranking
      let mts : MessageTreeState :=
        { message_tree_id := root_msg.id
          goal_tree_size := 0
          max_depth := 0
          max_children_count := 0
          state := state
          origin := cfg.origin
          active := active
          lang := pyStrOr (some root_msg.lang) "en" }
      ({ st1 with treeStates := st1.treeStates ++ [mts] }, .ok (mts, root_msg))

/-- One raw input line, modelled by the outcome of the external decoding steps
of `handle_json_line` (src/import_enhance.py lines 104-106, 120-121):
`json.loads` plus the routing on truthiness of `dict_node.get("message_tree_id")`
/ `dict_node.get("message_id")` plus `pydantic.parse_obj_as`.
* `malformed`: `json.loads` raises `JSONDecodeError`;
* `invalid`: the line decodes and routes to the tree or message path but
  `pydantic.parse_obj_as` raises `ValidationError`;
* `treeRecord t`: decodes with a truthy `message_tree_id` and parses as an
  `ExportMessageTree`;
* `messageRecord m`: decodes with a falsy `message_tree_id`, a truthy
  `message_id`, and parses as an `ExportMessageNode`;
* `other`: decodes but carries neither routing key (silently ignored). -/
inductive Line where
  | malformed
  | invalid
  | treeRecord (t : ExportMessageTree)
  | messageRecord (m : ExportMessageNode)
  | other
deriving Repr

/-- Python truthiness test `max_count and imported_count >= max_count`
(src/import_enhance.py lines 117 and 155): `None` and `0` are falsy. -/
def maxReached (max_count : Option Nat) (imported_count : Nat) : Bool :=
  match max_count with
  | none => false
  | some m => if m = 0 then false else imported_count ≥ m

/-- The body of the `try:` block of `handle_json_line`
(src/import_enhance.py lines 103-128), with exceptions as `Except.error`
results paired with the store as mutated up to the raise point.  The returned
`Nat` is the value of the local `imported_count` at the corresponding
`return`/fall-through point. -/
def handle_line_body (cfg : ImporterConfig) (line : Line) (num_activate : Nat)
    (max_count : Option Nat) (imported_count : Nat) (st : Store) :
    Store × Except ImportErr Nat :=
  match line with
  | .malformed => (st, .error .decodeError)
  | .invalid => (st, .error .validationError)
  | .treeRecord tree =>
      match fetch_message_tree_state st tree.message_tree_id with
      | some _ =>
          -- skip existing tree; then the early return of lines 117-119,
          -- which returns the same count as the final fall-through
          if maxReached max_count imported_count then (st, .ok imported_count)
          else (st, .ok imported_count)
      | none =>
          let state := if imported_count ≥ num_activate then TreeState.backlog_ranking
                       else TreeState.ranking
          let res := import_tree cfg tree state st
          match res.2 with
          | .error e => (res.1, .error e)
          | .ok _ =>
              if maxReached max_count (imported_count + 1) then (res.1, .ok (imported_count + 1))
              else (res.1, .ok (imported_count + 1))
  | .messageRecord message =>
      match fetch_message st message.message_id with
      | some _ => (st, .ok imported_count)
      | none =>
          let res := import_message cfg message message.message_id none st
          (res.1, .ok (imported_count + 1))
  | .other => (st, .ok imported_count)

/-- `handle_json_line` (src/import_enhance.py lines 102-136): run the body,
catch every exception (`JSONDecodeError`, `ValidationError`, bare
`Exception`), and return the running count — unchanged when an exception was
caught, since every raise point precedes the `imported_count += 1` of its
branch.  Mutations made before a raise stay in the session. -/
def handle_json_line (cfg : ImporterConfig) (line : Line) (num_activate : Nat)
    (max_count : Option Nat) (imported_count : Nat) (st : Store) : Store × Nat :=
  match handle_line_body cfg line num_activate max_count imported_count st with
  | (st1, .ok c) => (st1, c)
  | (st1, .error _) => (st1, imported_count)

/-- The `for line in file_in:` loop of `import_tx`
(src/import_enhance.py lines 152-156): feed each line to `handle_json_line`,
and break once `max_count` is truthy and the running count has reached it. -/
def import_tx_loop (cfg : ImporterConfig) (num_activate : Nat)
    (max_count : Option Nat) : List Line → Store → Nat → Store × Nat
  | [], st, imported_count => (st, imported_count)
  | line :: rest, st, imported_count =>
      let res := handle_json_line cfg line num_activate max_count imported_count st
      if maxReached max_count res.2 then res
      else import_tx_loop cfg num_activate max_count rest res.1 res.2

/-- Modelled from the spec: the transaction wrapper
`@db_utils.managed_tx_function(auto_commit=CommitMode.ROLLBACK if dry_run else CommitMode.COMMIT)`
around `import_tx` (src/import_enhance.py lines 147-162) comes from
`oasst_backend.utils.database_utils`, which is not part of this repository's
sources; per the spec's commit policy it commits all writes of the unit of
work on normal completion when `dry_run` is false and rolls all of them back
when `dry_run` is true.  `import_file` therefore returns the count produced by
the loop together with the persisted store after commit/rollback; the loop
itself always starts reading from the persisted content, so reads during the
run see committed rows plus the run's own uncommitted writes. -/
def import_file (cfg : ImporterConfig) (lines : List Line) (num_activate : Nat)
    (max_count : Option Nat) (dry_run : Bool) (persisted : Store) : Nat × Store :=
  let res := import_tx_loop cfg num_activate max_count lines persisted 0
  (res.2, if dry_run then persisted else res.1)

/-! Concrete data used by witnesses and counterexamples. -/

/-- A concrete importer configuration. -/
def demoCfg : ImporterConfig :=
  { origin := "demo-origin", model_name := some "fallback-model",
    api_client_id := 1, import_user_id := 2 }

/-- The empty persisted store. -/
def emptyStore : Store := { messages := [], treeStates := [] }

/-- A reply-less message node with the given id and every optional field
absent. -/
def leafNode (i : Nat) : ExportMessageNode :=
  .mk i "hello" "prompter" none none none none .nil

/-- A one-node conversation tree whose tree id matches its root id. -/
def demoTree (i : Nat) : ExportMessageTree :=
  { message_tree_id := some i, prompt := leafNode i }

/-- An input line carrying a well-formed one-node tree record. -/
def treeLine (i : Nat) : Line := Line.treeRecord (demoTree i)

/-- An input line carrying a well-formed standalone message record. -/
def msgLine (i : Nat) : Line := Line.messageRecord (leafNode i)

/-- A tree record whose tree id (1) differs from its root message id (2):
`import_tree` raises its structural `ValueError` on it. -/
def badTreeLine : Line := Line.treeRecord { message_tree_id := some 1, prompt := leafNode 2 }

/-- A message node with one reply, for exercising the recursive insertion. -/
def nodeWithReply : ExportMessageNode :=
  .mk 7 "root text" "prompter" none none none none (.cons (leafNode 8) .nil)

/-- A message node with every optional field explicitly present, with
`synthetic` explicitly `false`. -/
def explicitNode : ExportMessageNode :=
  .mk 9 "txt" "assistant" (some "de") (some false) (some "model-x") (some 3) .nil

/-- A `MessageTreeState` row for tree id 3, as a pre-existing store content. -/
def demoMts3 : MessageTreeState :=
  { message_tree_id := 3, goal_tree_size := 0, max_depth := 0, max_children_count := 0,
    state := TreeState.backlog_ranking, origin := "demo-origin", active := false,
    lang := "en" }

/-- A store already holding a `MessageTreeState` for tree id 3. -/
def demoStoreTree3 : Store := { messages := [], treeStates := [demoMts3] }

/-- A `Message` row with id 5, as a pre-existing store content. -/
def demoMsg5 : Message :=
  { id := 5, message_tree_id := 5, frontend_message_id := 5, parent_id := none,
    review_count := 0, lang := "en", review_result := true, synthetic := true,
    model_name := some "fallback-model", role := "prompter", text := "hello",
    api_client_id := 1, user_id := 2 }

/-- A store already holding a message with id 5. -/
def demoStoreMsg5 : Store := { messages := [demoMsg5], treeStates := [] }

/-! Derived abbreviations naming subterms of the functions above, used to
state lemmas about the successful tree-import path. -/

/-- The store after `import_tree` has inserted the root subtree
(src/import_enhance.py line 83). -/
def subtree_store (cfg : ImporterConfig) (t : ExportMessageTree) (st : Store) : Store :=
  (import_message cfg t.prompt t.prompt.message_id none st).1

/-- The root `Message` row returned by the subtree insertion of `import_tree`. -/
def root_row (cfg : ImporterConfig) (t : ExportMessageTree) (st : Store) : Message :=
  (import_message cfg t.prompt t.prompt.message_id none st).2

/-- The `MessageTreeState` row that `import_tree` builds for an accepted
state (src/import_enhance.py lines 87-97). -/
def new_mts (cfg : ImporterConfig) (t : ExportMessageTree) (s : TreeState) (st : Store) :
    MessageTreeState :=
  { message_tree_id := (root_row cfg t st).id
    goal_tree_size := 0
    max_depth := 0
    max_children_count := 0
    state := s
    origin := cfg.origin
    active := s == TreeState.ranking
    lang := pyStrOr (some (root_row cfg t st).lang) "en" }

/-- The state chosen by the classifier for a new tree
(src/import_enhance.py line 111): `BACKLOG_RANKING if imported_count >= num_activate else RANKING`. -/
def chosenState (imported_count num_activate : Nat) : TreeState :=
  if imported_count ≥ num_activate then TreeState.backlog_ranking else TreeState.ranking

/-! Helper lemmas about the embedding. -/

/-- Unfolded form of the `Message` row built by `import_message`. -/
theorem import_message_snd (cfg : ImporterConfig) (n : ExportMessageNode)
    (tid : Nat) (pid : Option Nat) (st : Store) :
    (import_message cfg n tid pid st).2 =
      { id := n.message_id
        message_tree_id := tid
        frontend_message_id := n.message_id
        parent_id := pid
        review_count := pyNatOr n.review_count 0
        lang := pyStrOr n.lang "en"
        review_result := true
        synthetic := n.synthetic.getD true
        model_name := pyOptStrOr n.model_name cfg.model_name
        role := n.role
        text := n.text
        api_client_id := cfg.api_client_id
        user_id := cfg.import_user_id } := by
  cases n with
  | mk mid mtext mrole mlang msynth mmodel mrc mreplies =>
    cases msynth <;> rfl

mutual
/-- `import_message` does not touch tree-state rows and only appends to the
message rows: the first appended row is the returned root. -/
theorem import_message_store_shape (cfg : ImporterConfig) (n : ExportMessageNode)
    (tid : Nat) (pid : Option Nat) (st : Store) :
    (import_message cfg n tid pid st).1.treeStates = st.treeStates ∧
    ∃ l, (import_message cfg n tid pid st).1.messages =
      st.messages ++ (import_message cfg n tid pid st).2 :: l := by
  cases n with
  | mk mid mtext mrole mlang msynth mmodel mrc mreplies =>
    have h := insert_replies_store_shape cfg mreplies tid mid
      { st with
        messages := st.messages ++ [(import_message cfg (.mk mid mtext mrole mlang msynth mmodel mrc mreplies) tid pid st).2] }
    obtain ⟨hts, l, hl⟩ := h
    refine ⟨?_, l, ?_⟩
    · simpa [import_message] using hts
    · simp only [import_message] at hl ⊢
      rw [hl]
      simp

/-- `insert_replies` does not touch tree-state rows and only appends message
rows. -/
theorem insert_replies_store_shape (cfg : ImporterConfig) (rs : ExportReplies)
    (tid : Nat) (pid : Nat) (st : Store) :
    (insert_replies cfg rs tid pid st).treeStates = st.treeStates ∧
    ∃ l, (insert_replies cfg rs tid pid st).messages = st.messages ++ l := by
  cases rs with
  | nil => exact ⟨rfl, [], by simp [insert_replies]⟩
  | cons r rest =>
    obtain ⟨hts1, l1, hl1⟩ := import_message_store_shape cfg r tid (some pid) st
    obtain ⟨hts2, l2, hl2⟩ :=
      insert_replies_store_shape cfg rest tid pid (import_message cfg r tid (some pid) st).1
    refine ⟨?_, (import_message cfg r tid (some pid) st).2 :: (l1 ++ l2), ?_⟩
    · simp only [insert_replies]
      rw [hts2, hts1]
    · simp only [insert_replies]
      rw [hl2, hl1]
      simp
end

/-- The result of one line's processing does not depend on `max_count`: the
early return of lines 117-119 returns the same store and count as the final
fall-through. -/
theorem handle_line_body_mc_irrel (cfg : ImporterConfig) (line : Line)
    (na : Nat) (mc mc' : Option Nat) (c : Nat) (st : Store) :
    handle_line_body cfg line na mc c st = handle_line_body cfg line na mc' c st := by
  cases line with
  | malformed => rfl
  | invalid => rfl
  | other => rfl
  | messageRecord m => rfl
  | treeRecord t =>
    simp only [handle_line_body]
    cases fetch_message_tree_state st t.message_tree_id with
    | some mts => simp
    | none =>
      cases (import_tree cfg t
          (if c ≥ na then TreeState.backlog_ranking else TreeState.ranking) st).2 with
      | error e => simp
      | ok v => simp

/-- `handle_json_line` does not depend on `max_count` either. -/
theorem handle_json_line_mc_irrel (cfg : ImporterConfig) (line : Line)
    (na : Nat) (mc mc' : Option Nat) (c : Nat) (st : Store) :
    handle_json_line cfg line na mc c st = handle_json_line cfg line na mc' c st := by
  simp only [handle_json_line, handle_line_body_mc_irrel cfg line na mc mc' c st]

/-- One line changes the running count by zero (skip, ignore, or caught
exception) or one (a successful import). -/
theorem handle_json_line_count_step (cfg : ImporterConfig) (line : Line)
    (na : Nat) (mc : Option Nat) (c : Nat) (st : Store) :
    (handle_json_line cfg line na mc c st).2 = c ∨
    (handle_json_line cfg line na mc c st).2 = c + 1 := by
  cases line with
  | malformed => exact Or.inl rfl
  | invalid => exact Or.inl rfl
  | other => exact Or.inl rfl
  | messageRecord m =>
    simp only [handle_json_line, handle_line_body]
    cases fetch_message st m.message_id with
    | some msg => exact Or.inl rfl
    | none => exact Or.inr rfl
  | treeRecord t =>
    simp only [handle_json_line, handle_line_body]
    cases fetch_message_tree_state st t.message_tree_id with
    | some mts => simp
    | none =>
      cases h : (import_tree cfg t
          (if c ≥ na then TreeState.backlog_ranking else TreeState.ranking) st).2 with
      | error e => simp [h]
      | ok v => simp [h]

/-- `max_count = None` never triggers the cutoff (Python falsiness). -/
theorem maxReached_none (c : Nat) : maxReached none c = false := rfl

/-- `max_count = 0` never triggers the cutoff (Python falsiness of `0`). -/
theorem maxReached_some_zero (c : Nat) : maxReached (some 0) c = false := rfl

/-- With `max_count = 0` the loop behaves exactly as with no maximum. -/
theorem import_tx_loop_zero_eq_none (cfg : ImporterConfig) (na : Nat)
    (lines : List Line) (st : Store) (c : Nat) :
    import_tx_loop cfg na (some 0) lines st c = import_tx_loop cfg na none lines st c := by
  induction lines generalizing st c with
  | nil => rfl
  | cons l rest ih =>
    simp only [import_tx_loop]
    rw [handle_json_line_mc_irrel cfg l na (some 0) none c st]
    simp only [maxReached_some_zero, maxReached_none, Bool.false_eq_true, if_false]
    exact ih _ _

/-- If the run without a maximum would reach `m` imports, the run with
`max_count = m` returns exactly `m` (the count cannot jump past `m` because a
line adds at most one). -/
theorem import_tx_loop_reach (cfg : ImporterConfig) (na m : Nat)
    (lines : List Line) (st : Store) (c : Nat) (hm : c < m)
    (hfull : m ≤ (import_tx_loop cfg na none lines st c).2) :
    (import_tx_loop cfg na (some m) lines st c).2 = m := by
  induction lines generalizing st c with
  | nil =>
    simp only [import_tx_loop] at hfull
    omega
  | cons l rest ih =>
    have hmc := handle_json_line_mc_irrel cfg l na (some m) none c st
    have hstep := handle_json_line_count_step cfg l na none c st
    by_cases h : maxReached (some m) (handle_json_line cfg l na none c st).2
    · have hv : (handle_json_line cfg l na none c st).2 = m := by
        simp only [maxReached] at h
        split at h
        · cases h
        · rcases hstep with h0 | h1 <;> simp at h <;> omega
      simp only [import_tx_loop, hmc, h, if_true]
      exact hv
    · have hlt : (handle_json_line cfg l na none c st).2 < m := by
        simp only [maxReached] at h
        split at h
        · omega
        · rcases hstep with h0 | h1 <;> simp at h <;> omega
      have hfull' : m ≤ (import_tx_loop cfg na none rest
          (handle_json_line cfg l na none c st).1
          (handle_json_line cfg l na none c st).2).2 := by
        simpa [import_tx_loop, maxReached_none] using hfull
      simp only [import_tx_loop, hmc, h, if_false]
      exact ih _ _ hlt hfull'

/-- Once the cutoff fires inside a prefix of the stream, appending further
lines changes nothing: they are never processed. -/
theorem import_tx_loop_stop_append (cfg : ImporterConfig) (na m : Nat)
    (lines extra : List Line) (st : Store) (c : Nat)
    (hc : maxReached (some m) c = false)
    (hreach : maxReached (some m) (import_tx_loop cfg na (some m) lines st c).2 = true) :
    import_tx_loop cfg na (some m) (lines ++ extra) st c =
      import_tx_loop cfg na (some m) lines st c := by
  induction lines generalizing st c with
  | nil =>
    simp only [import_tx_loop] at hreach
    rw [hc] at hreach
    cases hreach
  | cons l rest ih =>
    by_cases h : maxReached (some m) (handle_json_line cfg l na (some m) c st).2
    · simp only [List.cons_append, import_tx_loop, h, if_true]
    · have hreach' : maxReached (some m) (import_tx_loop cfg na (some m) rest
          (handle_json_line cfg l na (some m) c st).1
          (handle_json_line cfg l na (some m) c st).2).2 = true := by
        simpa [import_tx_loop, h] using hreach
      simp only [List.cons_append, import_tx_loop, h, if_false]
      exact ih _ _ (by simpa using h) hreach'

/-- On a tree whose id matches its root and an accepted state, `import_tree`
inserts the root subtree, then appends the new `MessageTreeState` row, and
returns both. -/
theorem import_tree_ok (cfg : ImporterConfig) (t : ExportMessageTree)
    (s : TreeState) (st : Store)
    (hid : t.message_tree_id = some t.prompt.message_id)
    (hs : s = TreeState.backlog_ranking ∨ s = TreeState.ranking) :
    import_tree cfg t s st =
      ({ subtree_store cfg t st with
          treeStates := (subtree_store cfg t st).treeStates ++ [new_mts cfg t s st] },
        Except.ok (new_mts cfg t s st, root_row cfg t st)) := by
  have hcond : ¬(t.message_tree_id.isNone ∨ t.message_tree_id ≠ some t.prompt.message_id) := by
    simp [hid]
  simp only [import_tree, hcond, if_false, if_neg]
  rw [if_neg (by simp only [not_not]; exact hs)]
  rfl

/-- The classifier's tree path on a tree id with no existing `MessageTreeState`:
choose the state by quota, import, and count one more. -/
theorem handle_tree_new (cfg : ImporterConfig) (t : ExportMessageTree)
    (na : Nat) (mc : Option Nat) (c : Nat) (st : Store)
    (hnew : fetch_message_tree_state st t.message_tree_id = none)
    (hid : t.message_tree_id = some t.prompt.message_id) :
    handle_json_line cfg (Line.treeRecord t) na mc c st =
      ({ subtree_store cfg t st with
          treeStates := (subtree_store cfg t st).treeStates ++
            [new_mts cfg t (chosenState c na) st] },
        c + 1) := by
  have hok := import_tree_ok cfg t (chosenState c na) st hid (by
    by_cases h : c ≥ na <;> simp [chosenState, h])
  simp only [handle_json_line, handle_line_body, hnew]
  rw [show (if c ≥ na then TreeState.backlog_ranking else TreeState.ranking) = chosenState c na from rfl]
  rw [hok]
  cases hmr : maxReached mc (c + 1) <;> simp

/-- The `active` flag of the row built for the chosen state is exactly
"fewer than `num_activate` records were imported before this line". -/
theorem new_mts_chosen_active (cfg : ImporterConfig) (t : ExportMessageTree)
    (na c : Nat) (st : Store) :
    (new_mts cfg t (chosenState c na) st).active = decide (c < na) ∧
    (new_mts cfg t (chosenState c na) st).state =
      (if c < na then TreeState.ranking else TreeState.backlog_ranking) ∧
    (new_mts cfg t (chosenState c na) st).message_tree_id = t.prompt.message_id := by
  have hroot : (root_row cfg t st).id = t.prompt.message_id := by
    rw [root_row, import_message_snd]
  by_cases h : c ≥ na
  · have h2 : ¬ c < na := by omega
    refine ⟨?_, ?_, hroot⟩ <;> simp [new_mts, chosenState, h, h2]
  · have h2 : c < na := by omega
    have h3 : ¬ na ≤ c := by omega
    refine ⟨?_, ?_, hroot⟩ <;> simp [new_mts, chosenState, h2, h3]

/-- A reply-less node inserts exactly one row. -/
theorem import_message_leaf (cfg : ImporterConfig) (n : ExportMessageNode)
    (tid : Nat) (pid : Option Nat) (st : Store) (h : n.replies = ExportReplies.nil) :
    (import_message cfg n tid pid st).1.messages =
      st.messages ++ [(import_message cfg n tid pid st).2] := by
  cases n with
  | mk mid mtext mrole mlang msynth mmodel mrc mreplies =>
    cases mreplies with
    | nil => rfl
    | cons r rest => simp [ExportMessageNode.replies] at h

/-! Claim theorems. -/

/-- C10: a run invoked with `max_count = 0` behaves exactly as if no maximum
were set — Python falsiness of `0` disables both cutoff checks, so the whole
stream is consumed and every importable record is imported, rather than zero
records. -/
theorem C10_max_count_zero_no_cutoff (cfg : ImporterConfig) (lines : List Line)
    (na : Nat) (dr : Bool) (persisted : Store) :
    import_file cfg lines na (some 0) dr persisted =
      import_file cfg lines na none dr persisted := by
  simp only [import_file, import_tx_loop_zero_eq_none]

/-- C6: a dry run returns the same count as the corresponding non-dry run but
leaves the persisted store content unchanged (all writes rolled back), while
a non-dry run persists exactly the store produced by the loop (all writes
committed on normal completion). -/
theorem C6_dry_run_rollback (cfg : ImporterConfig) (lines : List Line)
    (na : Nat) (mc : Option Nat) (persisted : Store) :
    (import_file cfg lines na mc true persisted).2 = persisted ∧
    (import_file cfg lines na mc true persisted).1 =
      (import_file cfg lines na mc false persisted).1 ∧
    (import_file cfg lines na mc false persisted).2 =
      (import_tx_loop cfg na mc lines persisted 0).1 :=
  ⟨rfl, rfl, rfl⟩

/-- C8: every inserted message gets language `"en"` when the input omits the
language tag, `synthetic = true` when the input leaves the flag unset and the
input's explicit value otherwise (explicit `false` persists as `false`),
review count `0` when omitted, and the configured fallback model name when the
input omits the model name. -/
theorem C8_default_substitution (cfg : ImporterConfig) (n : ExportMessageNode)
    (tid : Nat) (pid : Option Nat) (st : Store) :
    (n.lang = none → (import_message cfg n tid pid st).2.lang = "en") ∧
    (n.synthetic = none → (import_message cfg n tid pid st).2.synthetic = true) ∧
    (∀ b, n.synthetic = some b → (import_message cfg n tid pid st).2.synthetic = b) ∧
    (n.review_count = none → (import_message cfg n tid pid st).2.review_count = 0) ∧
    (n.model_name = none → (import_message cfg n tid pid st).2.model_name = cfg.model_name) := by
  rw [import_message_snd]
  refine ⟨fun h => ?_, fun h => ?_, fun b h => ?_, fun h => ?_, fun h => ?_⟩ <;>
    simp [h, pyStrOr, pyNatOr, pyOptStrOr]

/-- Witness for C8 at concrete inputs: a node omitting every optional field,
and a node with `synthetic` explicitly `false`. -/
theorem C8_default_substitution_witness :
    (import_message demoCfg (leafNode 5) 5 none emptyStore).2.lang = "en" ∧
    (import_message demoCfg (leafNode 5) 5 none emptyStore).2.synthetic = true ∧
    (import_message demoCfg (leafNode 5) 5 none emptyStore).2.review_count = 0 ∧
    (import_message demoCfg (leafNode 5) 5 none emptyStore).2.model_name = demoCfg.model_name ∧
    (import_message demoCfg explicitNode 9 none emptyStore).2.synthetic = false :=
  ⟨(C8_default_substitution demoCfg (leafNode 5) 5 none emptyStore).1 rfl,
   (C8_default_substitution demoCfg (leafNode 5) 5 none emptyStore).2.1 rfl,
   (C8_default_substitution demoCfg (leafNode 5) 5 none emptyStore).2.2.2.1 rfl,
   (C8_default_substitution demoCfg (leafNode 5) 5 none emptyStore).2.2.2.2 rfl,
   (C8_default_substitution demoCfg explicitNode 9 none emptyStore).2.2.1 false rfl⟩

/-- C9: when `import_tree` is called with a matching tree id but a state other
than `BACKLOG_RANKING` and `RANKING`, the root and its whole reply subtree
have already been added to the unit of work when the unsupported-state error
is raised: the result is exactly the subtree-inserted store paired with the
error, and that store holds strictly more message rows than before. -/
theorem C9_subtree_inserted_before_state_check (cfg : ImporterConfig)
    (t : ExportMessageTree) (s : TreeState) (st : Store)
    (hid : t.message_tree_id = some t.prompt.message_id)
    (hs1 : s ≠ TreeState.backlog_ranking) (hs2 : s ≠ TreeState.ranking) :
    import_tree cfg t s st =
      (subtree_store cfg t st, Except.error ImportErr.unsupportedState) ∧
    st.messages.length < (import_tree cfg t s st).1.messages.length := by
  have hcond : ¬(t.message_tree_id.isNone ∨ t.message_tree_id ≠ some t.prompt.message_id) := by
    simp [hid]
  have h1 : import_tree cfg t s st =
      (subtree_store cfg t st, Except.error ImportErr.unsupportedState) := by
    simp only [import_tree, hcond, if_false]
    rw [if_pos (by simp [hs1, hs2])]
    rfl
  refine ⟨h1, ?_⟩
  rw [h1]
  obtain ⟨-, l, hl⟩ := import_message_store_shape cfg t.prompt t.prompt.message_id none st
  rw [subtree_store, hl]
  simp

/-- Witness for C9: a two-node tree imported with target state `GROWING`
leaves both inserted rows in the unit of work next to the error. -/
theorem C9_subtree_inserted_before_state_check_witness :
    import_tree demoCfg { message_tree_id := some 7, prompt := nodeWithReply }
        TreeState.growing emptyStore =
      (subtree_store demoCfg { message_tree_id := some 7, prompt := nodeWithReply } emptyStore,
        Except.error ImportErr.unsupportedState) ∧
    emptyStore.messages.length <
      (import_tree demoCfg { message_tree_id := some 7, prompt := nodeWithReply }
        TreeState.growing emptyStore).1.messages.length :=
  C9_subtree_inserted_before_state_check demoCfg
    { message_tree_id := some 7, prompt := nodeWithReply } TreeState.growing emptyStore
    rfl (by decide) (by decide)

/-- C4: any exception raised while processing one line — decode failure,
schema-validation failure, or any other error, all modelled by an
`Except.error` result of the try-block body — is caught by `handle_json_line`:
the running count is returned unchanged and no error propagates, so the batch
continues with the next line.  In particular a stream of one malformed JSON
line between two well-formed importable tree records imports both records and
returns the count 2. -/
theorem C4_per_line_fault_isolation :
    (∀ (cfg : ImporterConfig) (line : Line) (na : Nat) (mc : Option Nat) (c : Nat)
        (st st1 : Store) (e : ImportErr),
        handle_line_body cfg line na mc c st = (st1, Except.error e) →
        handle_json_line cfg line na mc c st = (st1, c)) ∧
    (import_file demoCfg [treeLine 3, Line.malformed, treeLine 4] 0 none false emptyStore).1 = 2 := by
  constructor
  · intro cfg line na mc c st st1 e h
    simp [handle_json_line, h]
  · rfl

/-- Witness for C4: a malformed line at running count 5 leaves store and count
untouched. -/
theorem C4_per_line_fault_isolation_witness :
    handle_json_line demoCfg Line.malformed 0 none 5 emptyStore = (emptyStore, 5) :=
  C4_per_line_fault_isolation.1 demoCfg Line.malformed 0 none 5 emptyStore emptyStore
    ImportErr.decodeError rfl

/-- A one-line non-dry run without maximum is just one classifier step. -/
theorem import_file_single (cfg : ImporterConfig) (l : Line) (na : Nat) (s0 : Store) :
    import_file cfg [l] na none false s0 =
      ((handle_json_line cfg l na none 0 s0).2, (handle_json_line cfg l na none 0 s0).1) := by
  simp [import_file, import_tx_loop, maxReached]

/-- C7: a record whose tree id already has a `MessageTreeState`, or a
standalone message whose id already exists, is skipped: store and count are
unchanged.  Consequently importing the same well-formed tree record in two
separate runs yields exactly one `MessageTreeState` row — the first run adds
exactly one and commits, the second run contributes count 0 and changes
nothing. -/
theorem C7_idempotent_no_op (cfg : ImporterConfig) (t : ExportMessageTree)
    (m : ExportMessageNode) (na : Nat) (mc : Option Nat) (c : Nat) (st : Store) :
    (∀ mts, fetch_message_tree_state st t.message_tree_id = some mts →
      handle_json_line cfg (Line.treeRecord t) na mc c st = (st, c)) ∧
    (∀ msg, fetch_message st m.message_id = some msg →
      handle_json_line cfg (Line.messageRecord m) na mc c st = (st, c)) ∧
    (t.message_tree_id = some t.prompt.message_id →
     fetch_message_tree_state st t.message_tree_id = none →
      (import_file cfg [Line.treeRecord t] na none false st).1 = 1 ∧
      (import_file cfg [Line.treeRecord t] na none false st).2.treeStates.length =
        st.treeStates.length + 1 ∧
      import_file cfg [Line.treeRecord t] na none false
          ((import_file cfg [Line.treeRecord t] na none false st).2) =
        (0, (import_file cfg [Line.treeRecord t] na none false st).2)) := by
  refine ⟨?_, ?_, ?_⟩
  · intro mts hmts
    simp only [handle_json_line, handle_line_body, hmts]
    cases maxReached mc c <;> simp
  · intro msg hmsg
    simp only [handle_json_line, handle_line_body, hmsg]
  · intro hid hnew
    have hts : (subtree_store cfg t st).treeStates = st.treeStates :=
      (import_message_store_shape cfg t.prompt t.prompt.message_id none st).1
    have hrun1 : import_file cfg [Line.treeRecord t] na none false st =
        (1, { subtree_store cfg t st with
              treeStates := (subtree_store cfg t st).treeStates ++
                [new_mts cfg t (chosenState 0 na) st] }) := by
      rw [import_file_single, handle_tree_new cfg t na none 0 st hnew hid]
    have hfetch : fetch_message_tree_state
        ({ subtree_store cfg t st with
           treeStates := (subtree_store cfg t st).treeStates ++
             [new_mts cfg t (chosenState 0 na) st] } : Store) t.message_tree_id =
        some (new_mts cfg t (chosenState 0 na) st) := by
      have hmid := (new_mts_chosen_active cfg t na 0 st).2.2
      simp only [fetch_message_tree_state] at hnew ⊢
      rw [hts, List.find?_append, hnew]
      simp [hmid, hid]
    have hrun2 : handle_json_line cfg (Line.treeRecord t) na none 0
        ({ subtree_store cfg t st with
           treeStates := (subtree_store cfg t st).treeStates ++
             [new_mts cfg t (chosenState 0 na) st] } : Store) =
        ({ subtree_store cfg t st with
           treeStates := (subtree_store cfg t st).treeStates ++
             [new_mts cfg t (chosenState 0 na) st] }, 0) := by
      simp only [handle_json_line, handle_line_body, hfetch]
      simp [maxReached]
    refine ⟨by rw [hrun1], ?_, ?_⟩
    · rw [hrun1]
      simp [hts]
    · rw [hrun1, import_file_single, hrun2]

/-- Witness for C7: a tree line against a store already holding its
`MessageTreeState`, a message line against a store already holding its id,
and the full two-run scenario from the empty store. -/
theorem C7_idempotent_no_op_witness :
    handle_json_line demoCfg (Line.treeRecord (demoTree 3)) 0 none 4 demoStoreTree3 =
      (demoStoreTree3, 4) ∧
    handle_json_line demoCfg (Line.messageRecord (leafNode 5)) 0 none 4 demoStoreMsg5 =
      (demoStoreMsg5, 4) ∧
    (import_file demoCfg [Line.treeRecord (demoTree 3)] 0 none false emptyStore).1 = 1 ∧
    (import_file demoCfg [Line.treeRecord (demoTree 3)] 0 none false emptyStore).2.treeStates.length =
      emptyStore.treeStates.length + 1 ∧
    import_file demoCfg [Line.treeRecord (demoTree 3)] 0 none false
        ((import_file demoCfg [Line.treeRecord (demoTree 3)] 0 none false emptyStore).2) =
      (0, (import_file demoCfg [Line.treeRecord (demoTree 3)] 0 none false emptyStore).2) := by
  refine ⟨?_, ?_, ?_⟩
  · exact (C7_idempotent_no_op demoCfg (demoTree 3) (leafNode 5) 0 none 4 demoStoreTree3).1
      demoMts3 rfl
  · exact (C7_idempotent_no_op demoCfg (demoTree 3) (leafNode 5) 0 none 4 demoStoreMsg5).2.1
      demoMsg5 rfl
  · exact (C7_idempotent_no_op demoCfg (demoTree 3) (leafNode 5) 0 none 4 emptyStore).2.2
      rfl rfl

/-- C5: for a positive `max_count` m, if a prefix of the stream already
contains enough importable records that an unbounded run over it would import
at least m, then the bounded run returns exactly m (the count can never jump
past m, and the line that reaches m is still fully processed), and no line
beyond that prefix is ever consumed: appending any further lines leaves the
run's result — count and store — unchanged. -/
theorem C5_max_count_cutoff (cfg : ImporterConfig) (na m : Nat)
    (front extra : List Line) (st : Store) (hm : 0 < m)
    (hfull : m ≤ (import_tx_loop cfg na none front st 0).2) :
    (import_file cfg front na (some m) false st).1 = m ∧
    import_file cfg (front ++ extra) na (some m) false st =
      import_file cfg front na (some m) false st := by
  have hm0 : m ≠ 0 := by omega
  have hcount : (import_tx_loop cfg na (some m) front st 0).2 = m :=
    import_tx_loop_reach cfg na m front st 0 hm hfull
  have hstop : import_tx_loop cfg na (some m) (front ++ extra) st 0 =
      import_tx_loop cfg na (some m) front st 0 := by
    apply import_tx_loop_stop_append
    · simp [maxReached, hm0]
    · rw [hcount]
      simp [maxReached, hm0]
  exact ⟨hcount, by simp only [import_file, hstop]⟩

/-- Witness for C5, the spec's own example: six importable records with
`max_count = 3` import exactly 3, and the last three lines are never
processed. -/
theorem C5_max_count_cutoff_witness :
    (import_file demoCfg [treeLine 1, treeLine 2, treeLine 3] 0 (some 3) false emptyStore).1 = 3 ∧
    import_file demoCfg ([treeLine 1, treeLine 2, treeLine 3] ++
        [treeLine 4, treeLine 5, treeLine 6]) 0 (some 3) false emptyStore =
      import_file demoCfg [treeLine 1, treeLine 2, treeLine 3] 0 (some 3) false emptyStore :=
  C5_max_count_cutoff demoCfg 0 3 [treeLine 1, treeLine 2, treeLine 3]
    [treeLine 4, treeLine 5, treeLine 6] emptyStore (by decide) (by decide)

/-- Counterexample to C1: on the stream [tree with id 1 but root id 2; good
tree 3], the first line's processing does raise the Tree Importer's structural
validation error, yet the run does not abort: it completes, returns count 1,
and persists the good tree's state row.  So the error neither propagates out
of the unit of work nor discards the run. -/
theorem C1_counterexample_error_is_swallowed :
    (handle_line_body demoCfg badTreeLine 0 none 0 emptyStore).2 =
      Except.error ImportErr.structuralValidation ∧
    ImportErr.isStructural ImportErr.structuralValidation = true ∧
    (import_file demoCfg [badTreeLine, treeLine 3] 0 none false emptyStore).1 = 1 ∧
    (import_file demoCfg [badTreeLine, treeLine 3] 0 none false emptyStore).2.treeStates.length = 1 :=
  ⟨rfl, rfl, rfl, rfl⟩

/-- C1 as amended: a structural validation error raised by the Tree Importer
is caught by the Record Classifier's catch-all like any other per-line error —
the offending line contributes no count, mutations flushed before the raise
stay in the unit of work, and the batch simply continues with the next line
(so the run completes and returns the accumulated count). -/
theorem C1_amended_structural_error_caught (cfg : ImporterConfig) (line : Line)
    (na : Nat) (mc : Option Nat) (c : Nat) (st st1 : Store) (e : ImportErr)
    (_hs : e.isStructural = true)
    (hbody : handle_line_body cfg line na mc c st = (st1, Except.error e)) :
    handle_json_line cfg line na mc c st = (st1, c) ∧
    (maxReached mc c = false →
      ∀ rest, import_tx_loop cfg na mc (line :: rest) st c =
        import_tx_loop cfg na mc rest st1 c) := by
  have hh : handle_json_line cfg line na mc c st = (st1, c) := by
    simp [handle_json_line, hbody]
  refine ⟨hh, fun hmr rest => ?_⟩
  simp [import_tx_loop, hh, hmr]

/-- Witness for the amended C1 at the concrete mismatched tree line. -/
theorem C1_amended_structural_error_caught_witness :
    handle_json_line demoCfg badTreeLine 0 none 0 emptyStore = (emptyStore, 0) ∧
    import_tx_loop demoCfg 0 none [badTreeLine, treeLine 3] emptyStore 0 =
      import_tx_loop demoCfg 0 none [treeLine 3] emptyStore 0 :=
  ⟨(C1_amended_structural_error_caught demoCfg badTreeLine 0 none 0 emptyStore emptyStore
      ImportErr.structuralValidation rfl rfl).1,
   (C1_amended_structural_error_caught demoCfg badTreeLine 0 none 0 emptyStore emptyStore
      ImportErr.structuralValidation rfl rfl).2 rfl [treeLine 3]⟩

/-- Counterexample to C2: with activation quota 1 and the stream [new
standalone message 4; new tree 5], the first (and only) newly-imported tree is
created as `BACKLOG_RANKING`/inactive, because the interleaved newly-imported
message already consumed the quota — the claim demands the first tree get
`RANKING`/active independent of interleaved message records. -/
theorem C2_counterexample_message_consumes_quota :
    (import_file demoCfg [msgLine 4, treeLine 5] 1 none false emptyStore).1 = 2 ∧
    (fetch_message_tree_state
        (import_file demoCfg [msgLine 4, treeLine 5] 1 none false emptyStore).2
        (some 5)).map MessageTreeState.active = some false ∧
    (fetch_message_tree_state
        (import_file demoCfg [msgLine 4, treeLine 5] 1 none false emptyStore).2
        (some 5)).map MessageTreeState.state = some TreeState.backlog_ranking :=
  ⟨rfl, rfl, rfl⟩

/-- C2 as amended: a newly-imported tree is created with state `RANKING` and
`active = true` exactly when the total number of records newly imported
earlier in the run — trees and standalone messages alike — is below the
activation quota, and with `BACKLOG_RANKING`/inactive otherwise.  Skipped
duplicates and failed lines do not advance the count, but newly-imported
standalone messages do. -/
theorem C2_amended_quota_over_all_records (cfg : ImporterConfig)
    (t : ExportMessageTree) (na : Nat) (mc : Option Nat) (c : Nat) (st : Store)
    (hnew : fetch_message_tree_state st t.message_tree_id = none)
    (hid : t.message_tree_id = some t.prompt.message_id) :
    handle_json_line cfg (Line.treeRecord t) na mc c st =
      ({ subtree_store cfg t st with
          treeStates := (subtree_store cfg t st).treeStates ++
            [new_mts cfg t (chosenState c na) st] }, c + 1) ∧
    (new_mts cfg t (chosenState c na) st).active = decide (c < na) ∧
    (new_mts cfg t (chosenState c na) st).state =
      (if c < na then TreeState.ranking else TreeState.backlog_ranking) :=
  ⟨handle_tree_new cfg t na mc c st hnew hid,
   (new_mts_chosen_active cfg t na c st).1,
   (new_mts_chosen_active cfg t na c st).2.1⟩

/-- Witness for the amended C2: a new tree at running count 0 with quota 2 is
activated for ranking. -/
theorem C2_amended_quota_over_all_records_witness :
    handle_json_line demoCfg (Line.treeRecord (demoTree 7)) 2 none 0 emptyStore =
      ({ subtree_store demoCfg (demoTree 7) emptyStore with
          treeStates := (subtree_store demoCfg (demoTree 7) emptyStore).treeStates ++
            [new_mts demoCfg (demoTree 7) (chosenState 0 2) emptyStore] }, 0 + 1) ∧
    (new_mts demoCfg (demoTree 7) (chosenState 0 2) emptyStore).active = true ∧
    (new_mts demoCfg (demoTree 7) (chosenState 0 2) emptyStore).state = TreeState.ranking :=
  C2_amended_quota_over_all_records demoCfg (demoTree 7) 2 none 0 emptyStore rfl rfl

/-- Counterexample to C3: a standalone message import creates no
`MessageTreeState`, so the tree path's existence check does not see it — on
the stream [message 5; tree 5] (the claim's order) the run issues a second
insert of message id 5 to the unit of work instead of exactly one persisted
message. -/
theorem C3_counterexample_tree_not_deduplicated :
    fetch_message_tree_state demoStoreMsg5 (some 5) = none ∧
    ((import_file demoCfg [msgLine 5, treeLine 5] 0 none false emptyStore).2.messages.filter
        (fun row => row.id == 5)).length = 2 :=
  ⟨rfl, rfl⟩

/-- C3 as amended: deduplication between the two record kinds works only in
the tree-record-first order.  After a tree record is imported, a later
standalone message record carrying the root's id is a no-op — the message
path's existence check does see the run's own uncommitted root — and, when
the tree is a single node and the id was not present before, the run ends
with exactly one message row carrying that id.  In the message-record-first
order the tree path's check (which looks up `MessageTreeState`, a row a
standalone message import never creates) finds nothing and the tree is
imported again. -/
theorem C3_amended_dedup_only_tree_first (cfg : ImporterConfig)
    (t : ExportMessageTree) (m : ExportMessageNode) (na : Nat) (mc : Option Nat)
    (c : Nat) (st : Store)
    (hid : t.message_tree_id = some t.prompt.message_id)
    (hmid : m.message_id = t.prompt.message_id)
    (hnew : fetch_message_tree_state st t.message_tree_id = none) :
    handle_json_line cfg (Line.messageRecord m) na mc
        (handle_json_line cfg (Line.treeRecord t) na mc c st).2
        (handle_json_line cfg (Line.treeRecord t) na mc c st).1 =
      ((handle_json_line cfg (Line.treeRecord t) na mc c st).1,
        (handle_json_line cfg (Line.treeRecord t) na mc c st).2) ∧
    (t.prompt.replies = ExportReplies.nil →
     st.messages.filter (fun row => row.id == t.prompt.message_id) = [] →
      ((handle_json_line cfg (Line.treeRecord t) na mc c st).1.messages.filter
          (fun row => row.id == t.prompt.message_id)).length = 1) := by
  have h1 := handle_tree_new cfg t na mc c st hnew hid
  have hroot_id : (root_row cfg t st).id = t.prompt.message_id := by
    rw [root_row, import_message_snd]
  obtain ⟨-, tail, htail⟩ :=
    import_message_store_shape cfg t.prompt t.prompt.message_id none st
  constructor
  · rw [h1]
    have hmem : root_row cfg t st ∈ (subtree_store cfg t st).messages := by
      simp only [subtree_store, root_row]
      rw [htail]
      exact List.mem_append_right _ (List.mem_cons_self _ _)
    have hsome : (fetch_message
        ({ subtree_store cfg t st with
           treeStates := (subtree_store cfg t st).treeStates ++
             [new_mts cfg t (chosenState c na) st] } : Store) m.message_id).isSome := by
      simp only [fetch_message]
      rw [List.find?_isSome]
      exact ⟨root_row cfg t st, hmem, by simp [hroot_id, hmid]⟩
    obtain ⟨msg, hmsg⟩ := Option.isSome_iff_exists.mp hsome
    simp only [handle_json_line, handle_line_body, hmsg]
  · intro hleaf hfilter
    rw [h1]
    have hmsgs : (subtree_store cfg t st).messages = st.messages ++ [root_row cfg t st] := by
      simp only [subtree_store, root_row]
      exact import_message_leaf cfg t.prompt t.prompt.message_id none st hleaf
    simp only [hmsgs, List.filter_append, hfilter]
    simp [hroot_id]

/-- Witness for the amended C3: one-node tree 5 first, then a standalone
message with id 5 — the message line is a no-op and exactly one row with id 5
remains in the unit of work. -/
theorem C3_amended_dedup_only_tree_first_witness :
    handle_json_line demoCfg (Line.messageRecord (leafNode 5)) 0 none
        (handle_json_line demoCfg (Line.treeRecord (demoTree 5)) 0 none 0 emptyStore).2
        (handle_json_line demoCfg (Line.treeRecord (demoTree 5)) 0 none 0 emptyStore).1 =
      ((handle_json_line demoCfg (Line.treeRecord (demoTree 5)) 0 none 0 emptyStore).1,
        (handle_json_line demoCfg (Line.treeRecord (demoTree 5)) 0 none 0 emptyStore).2) ∧
    ((handle_json_line demoCfg (Line.treeRecord (demoTree 5)) 0 none 0 emptyStore).1.messages.filter
        (fun row => row.id == 5)).length = 1 :=
  ⟨(C3_amended_dedup_only_tree_first demoCfg (demoTree 5) (leafNode 5) 0 none 0 emptyStore
      rfl rfl rfl).1,
   (C3_amended_dedup_only_tree_first demoCfg (demoTree 5) (leafNode 5) 0 none 0 emptyStore
      rfl rfl rfl).2 rfl rfl⟩
